import Mathlib

/-!
Verification of the metadata-extraction core of the polaris audio server
(`src/app/index/metadata.rs`), as a shallow embedding in Lean 4.

The readers open a file through format-specific decoding libraries; in this
embedding the outcome of each library front-end call for the file under
consideration is packaged in an `Env` value, so every reader becomes a pure
function of that environment.  Reachable Rust panics (slice indexing on an
empty vector, integer division by zero) are modelled explicitly with the
`RunResult` type; `u64 -> u32` casts (`as u32`) are modelled as `% 2^32`.
-/

namespace Polaris

/-- First-some choice on options, the shape of Rust's `Option::or_else` chains. -/
def oalt {α : Type} (a b : Option α) : Option α :=
  match a with
  | some v => some v
  | none => b

@[simp]
theorem oalt_none {α : Type} (b : Option α) : oalt none b = b := rfl

@[simp]
theorem oalt_some {α : Type} (a : α) (b : Option α) : oalt (some a) b = some a := rfl

theorem oalt_none_right {α : Type} (a : Option α) : oalt a none = a := by
  cases a <;> rfl

theorem oalt_assoc {α : Type} (a b c : Option α) :
    oalt (oalt a b) c = oalt a (oalt b c) := by
  cases a <;> rfl

/-- Numeric value of a list of decimal digit characters. -/
def digitsToNat (ds : List Char) : Nat :=
  ds.foldl (fun acc c => acc * 10 + (c.toNat - 48)) 0

/-- Rust `str::parse::<u32>`: an optional leading plus sign, then one or more
ASCII decimal digits, and the value must fit in 32 bits. -/
def parseU32 (cs : List Char) : Option Nat :=
  let ds := if cs.head? = some '+' then cs.tail else cs
  if ds.isEmpty then none
  else if ds.all Char.isDigit then
    if digitsToNat ds < 4294967296 then some (digitsToNat ds) else none
  else none

/-- Rust `str::parse::<i32>`: an optional sign, then one or more ASCII decimal
digits, and the value must fit in signed 32 bits. -/
def parseI32 (cs : List Char) : Option Int :=
  if cs.head? = some '-' then
    let ds := cs.tail
    if ds.isEmpty then none
    else if ds.all Char.isDigit then
      if digitsToNat ds ≤ 2147483648 then some (-(digitsToNat ds : Int)) else none
    else none
  else
    let ds := if cs.head? = some '+' then cs.tail else cs
    if ds.isEmpty then none
    else if ds.all Char.isDigit then
      if digitsToNat ds < 2147483648 then some ((digitsToNat ds : Int)) else none
    else none

def parseU32S (s : String) : Option Nat := parseU32 s.data

def parseI32S (s : String) : Option Int := parseI32 s.data

/-- ASCII lowercasing of a string, the normalization behind
`str::eq_ignore_ascii_case`. -/
def lowerStr (s : String) : String := String.mk (s.data.map Char.toLower)

/-- Modelled from the spec: the repository's `utils::match_ignore_case!` macro is
not under `src/`; per the spec, comment-list key matching "is case-insensitive
against a fixed canonical key set", so a literal matches a key when the two
agree up to ASCII case. -/
def eqIgnoreCase (a b : String) : Bool := lowerStr a == lowerStr b

/-- The canonical result of reading one file (`SongMetadata` in the source). -/
structure SongMetadata where
  disc_number : Option Nat
  track_number : Option Nat
  title : Option String
  duration : Option Nat
  artists : List String
  album_artists : List String
  album : Option String
  year : Option Int
  has_artwork : Bool
  lyricists : List String
  composers : List String
  genres : List String
  labels : List String
deriving DecidableEq

/-- `SongMetadata::default()`: every field absent, empty or false. -/
def SongMetadata.default : SongMetadata :=
  { disc_number := none, track_number := none, title := none, duration := none
    artists := [], album_artists := [], album := none, year := none
    has_artwork := false, lyricists := [], composers := [], genres := [], labels := [] }

/-- The reader error taxonomy (`enum Error` in the source); each wrapping case
carries the display text of the wrapped library error. -/
inductive Error where
  | Ape (cause : String)
  | Id3 (cause : String)
  | Io (path : String) (cause : String)
  | Metaflac (cause : String)
  | Mp4aMeta (cause : String)
  | Opus (cause : String)
  | Vorbis (cause : String)
  | VorbisCommentNotFoundInFlacFile
deriving DecidableEq

/-- Display text of an `Error`, following the `thiserror` attributes: the
transparent cases show the wrapped cause, `Io` and the FLAC case have fixed
format strings. -/
def errorMessage : Error → String
  | .Ape c => c
  | .Id3 c => c
  | .Io p c => "Filesystem error for `" ++ p ++ "`: `" ++ c ++ "`"
  | .Metaflac c => c
  | .Mp4aMeta c => c
  | .Opus c => c
  | .Vorbis c => c
  | .VorbisCommentNotFoundInFlacFile => "Could not find a Vorbis comment within flac file"

/-- One diagnostic log record written by the dispatcher's `error!` call; it
carries the path and the display text of the failure cause. -/
structure LogEntry where
  path : String
  cause : String
deriving DecidableEq

/-- Outcome of running a piece of Rust code that may panic (abort the process). -/
inductive RunResult (α : Type) where
  | panics (msg : String)
  | ok (val : α)
deriving DecidableEq

/-- The closed set of recognized audio formats (`utils::AudioFormat`). -/
inductive AudioFormat where
  | AIFF | APE | FLAC | M4B | MP3 | MP4 | MPC | OGG | OPUS | WAVE
deriving DecidableEq

/-- An `id3::Timestamp`; only the year component is read by this code. -/
structure Timestamp where
  year : Int
deriving DecidableEq

/-- An ID3 frame as seen through `frame.content().text_values()`. -/
structure Id3Frame where
  text_values : Option (List String)

/-- An `id3::Tag` restricted to the accessors the source calls: named frame
lookup plus the well-known field accessors. -/
structure Id3Tag where
  get : String → Option Id3Frame
  album : Option String
  title : Option String
  duration : Option Nat
  disc : Option Nat
  track : Option Nat
  year : Option Int
  date_released : Option Timestamp
  original_date_released : Option Timestamp
  date_recorded : Option Timestamp
  pictures : Nat

/-- An `id3::Error`: a display cause plus the best-effort `partial_tag` the
parser may have recovered. -/
structure Id3Error where
  cause : String
  partial_tag : Option Id3Tag

/-- The `ID3Ext::get_text_values` extension trait from the source. -/
def Id3Tag.get_text_values (tag : Id3Tag) (frame_name : String) : List String :=
  (((tag.get frame_name).bind Id3Frame.text_values).map id).getD []

/-- An `ape::ItemValue`. -/
inductive ApeItemValue where
  | Text (s : String)
  | Binary (bytes : List Nat)
  | Locator (s : String)
deriving DecidableEq

/-- An `ape::Item`. -/
structure ApeItem where
  key : String
  value : ApeItemValue
deriving DecidableEq

/-- An `ape::Tag`: the flat ordered item list. -/
structure ApeTag where
  items_list : List ApeItem
deriving DecidableEq

/-- `ape::Tag::item`: the first item with the given key (the spec states the
item-tag reader matches keys by exact, case-sensitive name). -/
def ApeTag.item (tag : ApeTag) (key : String) : Option ApeItem :=
  tag.items_list.find? (fun i => i.key == key)

/-- `ape::Tag::items`: every item with the given key, in tag order. -/
def ApeTag.items (tag : ApeTag) (key : String) : List ApeItem :=
  tag.items_list.filter (fun i => i.key == key)

/-- A `metaflac` stream-info block restricted to the two fields read here. -/
structure StreamInfo where
  total_samples : Nat
  sample_rate : Nat
deriving DecidableEq

/-- A `metaflac::block::VorbisComment`: a map from keys to value lists,
modelled as an association list with unique keys. -/
structure FlacVorbisComment where
  comments : List (String × List String)
deriving DecidableEq

/-- `VorbisComment::get`. -/
def FlacVorbisComment.get (vc : FlacVorbisComment) (key : String) : Option (List String) :=
  (vc.comments.find? (fun kv => kv.1 == key)).map Prod.snd

def FlacVorbisComment.artist (vc : FlacVorbisComment) : Option (List String) :=
  vc.get "ARTIST"

def FlacVorbisComment.album_artist (vc : FlacVorbisComment) : Option (List String) :=
  vc.get "ALBUMARTIST"

def FlacVorbisComment.album (vc : FlacVorbisComment) : Option (List String) :=
  vc.get "ALBUM"

def FlacVorbisComment.title (vc : FlacVorbisComment) : Option (List String) :=
  vc.get "TITLE"

/-- `VorbisComment::track` (library accessor): first TRACKNUMBER value parsed
as an unsigned integer. -/
def FlacVorbisComment.track (vc : FlacVorbisComment) : Option Nat :=
  (vc.get "TRACKNUMBER").bind (fun v => v.head?.bind parseU32S)

/-- A `metaflac::Tag` restricted to what the source reads: the optional
comment block, the first stream-info block, and the picture count. -/
structure FlacTag where
  vorbis_comments : Option FlacVorbisComment
  streaminfo : Option StreamInfo
  pictures : Nat
deriving DecidableEq

/-- An `mp4ameta::Tag` as seen through the accessors the source drains. -/
structure Mp4Tag where
  artists : List String
  album_artists : List String
  album : Option String
  title : Option String
  duration : Option Nat
  disc_number : Option Nat
  track_number : Option Nat
  year : Option String
  has_artwork : Bool
  lyricists : List String
  composers : List String
  genres : List String
  labels : List String
deriving DecidableEq

/-- The library front-end outcomes for the file under consideration: each field
is what the corresponding library call returns for this file's bytes. -/
structure Env where
  id3_read : Except Id3Error Id3Tag
  mp3_scan : Except Unit Nat
  ape_read : Except String ApeTag
  file_open : Except String Unit
  ogg_new : Except String (List (String × String))
  opus_parse : Except String (List (String × String))
  flac_read : Except String FlacTag
  mp4_read : Except String Mp4Tag

/-- Field extraction of `read_id3` once a (full or partial) tag is in hand. -/
def extract_id3 (tag : Id3Tag) : SongMetadata :=
  { artists := tag.get_text_values "TPE1"
    album_artists := tag.get_text_values "TPE2"
    album := tag.album
    title := tag.title
    duration := tag.duration
    disc_number := tag.disc
    track_number := tag.track
    year := oalt (oalt (oalt tag.year (tag.date_released.map Timestamp.year))
      (tag.original_date_released.map Timestamp.year))
      (tag.date_recorded.map Timestamp.year)
    has_artwork := tag.pictures > 0
    lyricists := tag.get_text_values "TEXT"
    composers := tag.get_text_values "TCOM"
    genres := tag.get_text_values "TCON"
    labels := tag.get_text_values "TPUB" }

/-- `read_id3`: strict parse, falling back to a recovered partial tag when the
error carries one; a hard failure otherwise. -/
def read_id3 (env : Env) : Except Error SongMetadata :=
  match (match env.id3_read with
         | Except.ok tag => Except.ok tag
         | Except.error error =>
           match error.partial_tag with
           | some tag => Except.ok tag
           | none => Except.error error) with
  | Except.error e => Except.error (Error.Id3 e.cause)
  | Except.ok tag => Except.ok (extract_id3 tag)

/-- `read_mp3`: frame-tag fields, with duration replaced by the result of the
`mp3_duration` full-stream scan (`as_secs() as u32`, hence `% 2^32`). -/
def read_mp3 (env : Env) : Except Error SongMetadata :=
  match read_id3 env with
  | Except.error e => Except.error e
  | Except.ok metadata =>
    let duration := match env.mp3_scan with
      | Except.ok d => some (d % 4294967296)
      | Except.error _ => none
    Except.ok { metadata with duration := duration }

namespace ape_ext

/-- `ape_ext::read_string`. -/
def read_string (item : ApeItem) : Option String :=
  match item.value with
  | ApeItemValue.Text s => some s
  | _ => none

/-- `ape_ext::read_strings`. -/
def read_strings (items : List ApeItem) : List String :=
  items.filterMap read_string

/-- `ape_ext::read_i32`. -/
def read_i32 (item : ApeItem) : Option Int :=
  match item.value with
  | ApeItemValue.Text s => parseI32 s.data
  | _ => none

/-- The code point ranges of the Unicode general category Nd (decimal number,
UCD 15.0): the character class the regex crate's `\d` matches by default. -/
def ndRanges : List (Nat × Nat) :=
  [(0x30, 0x39), (0x660, 0x669), (0x6F0, 0x6F9), (0x7C0, 0x7C9), (0x966, 0x96F),
   (0x9E6, 0x9EF), (0xA66, 0xA6F), (0xAE6, 0xAEF), (0xB66, 0xB6F), (0xBE6, 0xBEF),
   (0xC66, 0xC6F), (0xCE6, 0xCEF), (0xD66, 0xD6F), (0xDE6, 0xDEF), (0xE50, 0xE59),
   (0xED0, 0xED9), (0xF20, 0xF29), (0x1040, 0x1049), (0x1090, 0x1099),
   (0x17E0, 0x17E9), (0x1810, 0x1819), (0x1946, 0x194F), (0x19D0, 0x19D9),
   (0x1A80, 0x1A89), (0x1A90, 0x1A99), (0x1B50, 0x1B59), (0x1BB0, 0x1BB9),
   (0x1C40, 0x1C49), (0x1C50, 0x1C59), (0xA620, 0xA629), (0xA8D0, 0xA8D9),
   (0xA900, 0xA909), (0xA9D0, 0xA9D9), (0xA9F0, 0xA9F9), (0xAA50, 0xAA59),
   (0xABF0, 0xABF9), (0xFF10, 0xFF19), (0x104A0, 0x104A9), (0x10D30, 0x10D39),
   (0x11066, 0x1106F), (0x110F0, 0x110F9), (0x11136, 0x1113F), (0x111D0, 0x111D9),
   (0x112F0, 0x112F9), (0x11450, 0x11459), (0x114D0, 0x114D9), (0x11650, 0x11659),
   (0x116C0, 0x116C9), (0x11730, 0x11739), (0x118E0, 0x118E9), (0x11950, 0x11959),
   (0x11C50, 0x11C59), (0x11D50, 0x11D59), (0x11DA0, 0x11DA9), (0x11F50, 0x11F59),
   (0x16A60, 0x16A69), (0x16AC0, 0x16AC9), (0x16B50, 0x16B59), (0x1D7CE, 0x1D7FF),
   (0x1E140, 0x1E149), (0x1E2F0, 0x1E2F9), (0x1E4F0, 0x1E4F9), (0x1E950, 0x1E959),
   (0x1FBF0, 0x1FBF9)]

/-- Whether a character is a Unicode decimal digit (general category Nd): the
regex crate's `\d` is Unicode-aware by default, so it matches all of Nd, not
just the ASCII digits that `str::parse` accepts. -/
def isUnicodeDigit (c : Char) : Bool :=
  ndRanges.any (fun r => r.1 ≤ c.toNat && c.toNat ≤ r.2)

/-- The leading run of decimal digits, the match of the regex `^\d+` over the
Unicode digit class (none when the text does not begin with such a digit). -/
def leadingDigitRun (s : String) : Option (List Char) :=
  let run := s.data.takeWhile isUnicodeDigit
  if run.isEmpty then none else some run

/-- `ape_ext::read_x_of_y`: the leading digit run parsed as a `u32`. -/
def read_x_of_y (item : ApeItem) : Option Nat :=
  match item.value with
  | ApeItemValue.Text s =>
    match leadingDigitRun s with
    | some m => parseU32 m
    | none => none
  | _ => none

end ape_ext

/-- `read_ape`. -/
def read_ape (env : Env) : Except Error SongMetadata :=
  match env.ape_read with
  | Except.error e => Except.error (Error.Ape e)
  | Except.ok tag =>
    Except.ok
      { artists := ape_ext.read_strings (tag.items "Artist")
        album := (tag.item "Album").bind ape_ext.read_string
        album_artists := ape_ext.read_strings (tag.items "Album artist")
        title := (tag.item "Title").bind ape_ext.read_string
        year := (tag.item "Year").bind ape_ext.read_i32
        disc_number := (tag.item "Disc").bind ape_ext.read_x_of_y
        track_number := (tag.item "Track").bind ape_ext.read_x_of_y
        duration := none
        has_artwork := false
        lyricists := ape_ext.read_strings (tag.items "LYRICIST")
        composers := ape_ext.read_strings (tag.items "COMPOSER")
        genres := ape_ext.read_strings (tag.items "GENRE")
        labels := ape_ext.read_strings (tag.items "PUBLISHER") }

/-- One iteration of the comment loop shared by `read_vorbis` and `read_opus`:
the body of the `match_ignore_case!` dispatch, with the branches in source
order. -/
def collectComment (metadata : SongMetadata) (key value : String) : SongMetadata :=
  if eqIgnoreCase "TITLE" key then { metadata with title := some value }
  else if eqIgnoreCase "ALBUM" key then { metadata with album := some value }
  else if eqIgnoreCase "ARTIST" key then { metadata with artists := metadata.artists ++ [value] }
  else if eqIgnoreCase "ALBUMARTIST" key then
    { metadata with album_artists := metadata.album_artists ++ [value] }
  else if eqIgnoreCase "TRACKNUMBER" key then { metadata with track_number := parseU32S value }
  else if eqIgnoreCase "DISCNUMBER" key then { metadata with disc_number := parseU32S value }
  else if eqIgnoreCase "DATE" key then { metadata with year := parseI32S value }
  else if eqIgnoreCase "LYRICIST" key then
    { metadata with lyricists := metadata.lyricists ++ [value] }
  else if eqIgnoreCase "COMPOSER" key then
    { metadata with composers := metadata.composers ++ [value] }
  else if eqIgnoreCase "GENRE" key then { metadata with genres := metadata.genres ++ [value] }
  else if eqIgnoreCase "PUBLISHER" key then { metadata with labels := metadata.labels ++ [value] }
  else metadata

def stepComment (metadata : SongMetadata) (kv : String × String) : SongMetadata :=
  collectComment metadata kv.1 kv.2

/-- The comment loop over a default-initialized metadata value. -/
def readCommentList (comment_list : List (String × String)) : SongMetadata :=
  comment_list.foldl stepComment SongMetadata.default

/-- `read_vorbis`: open the file, read the Ogg headers, fold the comment list. -/
def read_vorbis (path : String) (env : Env) : Except Error SongMetadata :=
  match env.file_open with
  | Except.error e => Except.error (Error.Io path e)
  | Except.ok _ =>
    match env.ogg_new with
    | Except.error e => Except.error (Error.Vorbis e)
    | Except.ok comment_list => Except.ok (readCommentList comment_list)

/-- `read_opus`: parse the headers, fold the comment list. -/
def read_opus (env : Env) : Except Error SongMetadata :=
  match env.opus_parse with
  | Except.error e => Except.error (Error.Opus e)
  | Except.ok user_comments => Except.ok (readCommentList user_comments)

/-- `d[0].parse::<u32>().ok()` after `vorbis.get(key)`: indexing panics when the
value list is present but empty. -/
def vcFirstU32 (o : Option (List String)) : RunResult (Option Nat) :=
  match o with
  | none => RunResult.ok none
  | some [] => RunResult.panics "index out of bounds: the len is 0 but the index is 0"
  | some (d :: _) => RunResult.ok (parseU32S d)

/-- `d[0].parse::<i32>().ok()` after `vorbis.get(key)`. -/
def vcFirstI32 (o : Option (List String)) : RunResult (Option Int) :=
  match o with
  | none => RunResult.ok none
  | some [] => RunResult.panics "index out of bounds: the len is 0 but the index is 0"
  | some (d :: _) => RunResult.ok (parseI32S d)

/-- `.map(|v| v[0].clone())` on an optional value list. -/
def vcFirst (o : Option (List String)) : RunResult (Option String) :=
  match o with
  | none => RunResult.ok none
  | some [] => RunResult.panics "index out of bounds: the len is 0 but the index is 0"
  | some (v :: _) => RunResult.ok (some v)

/-- `Some(s.total_samples as u32 / s.sample_rate)`: the `u64` sample count is
truncated to 32 bits, and the `u32` division panics when the rate is zero. -/
def flacDuration (si : Option StreamInfo) : RunResult (Option Nat) :=
  match si with
  | none => RunResult.ok none
  | some s =>
    if s.sample_rate = 0 then RunResult.panics "attempt to divide by zero"
    else RunResult.ok (some (s.total_samples % 4294967296 / s.sample_rate))

/-- `|o| o.cloned().unwrap_or_default()`. -/
def multivalue (o : Option (List String)) : List String := o.getD []

/-- `read_flac`, with its reachable panics made explicit, in source evaluation
order: disc number, year, duration, then the struct literal's fields. -/
def read_flac (env : Env) : RunResult (Except Error SongMetadata) :=
  match env.flac_read with
  | Except.error e => RunResult.ok (Except.error (Error.Metaflac e))
  | Except.ok tag =>
    match tag.vorbis_comments with
    | none => RunResult.ok (Except.error Error.VorbisCommentNotFoundInFlacFile)
    | some vorbis =>
      match vcFirstU32 (vorbis.get "DISCNUMBER") with
      | RunResult.panics msg => RunResult.panics msg
      | RunResult.ok disc_number =>
        match vcFirstI32 (vorbis.get "DATE") with
        | RunResult.panics msg => RunResult.panics msg
        | RunResult.ok year =>
          match flacDuration tag.streaminfo with
          | RunResult.panics msg => RunResult.panics msg
          | RunResult.ok duration =>
            match vcFirst vorbis.album with
            | RunResult.panics msg => RunResult.panics msg
            | RunResult.ok album =>
              match vcFirst vorbis.title with
              | RunResult.panics msg => RunResult.panics msg
              | RunResult.ok title =>
                RunResult.ok (Except.ok
                  { artists := multivalue vorbis.artist
                    album_artists := multivalue vorbis.album_artist
                    album := album
                    title := title
                    duration := duration
                    disc_number := disc_number
                    track_number := vorbis.track
                    year := year
                    has_artwork := tag.pictures > 0
                    lyricists := multivalue (vorbis.get "LYRICIST")
                    composers := multivalue (vorbis.get "COMPOSER")
                    genres := multivalue (vorbis.get "GENRE")
                    labels := multivalue (vorbis.get "PUBLISHER") })

/-- `read_mp4`: native accessors; year parsed from a string, duration
`as_secs() as u32`. -/
def read_mp4 (env : Env) : Except Error SongMetadata :=
  match env.mp4_read with
  | Except.error e => Except.error (Error.Mp4aMeta e)
  | Except.ok tag =>
    Except.ok
      { artists := tag.artists
        album_artists := tag.album_artists
        album := tag.album
        title := tag.title
        duration := tag.duration.map (· % 4294967296)
        disc_number := tag.disc_number
        track_number := tag.track_number
        year := tag.year.bind parseI32S
        has_artwork := tag.has_artwork
        lyricists := tag.lyricists
        composers := tag.composers
        genres := tag.genres
        labels := tag.labels }

/-- Modelled from the spec: the Format Detector (`utils::get_audio_format`) is
not under `src/`; per the spec it is "a pure function of the extension; no file
content is inspected", so the extension is the text after the last dot. -/
def extension (path : String) : Option String :=
  (path.data.foldl
    (fun acc c => if c = '.' then some [] else acc.map (fun l => l ++ [c]))
    none).map String.mk

/-- Modelled from the spec: the Format Detector maps a path's extension to one
of the closed set of recognized formats, or to none; the extension spellings
follow the fixtures in the repository's tests (`.aif`, `.mp3`, `.ogg`,
`.flac`, `.m4a`, `.opus`, `.ape`, `.wav`). -/
def get_audio_format (path : String) : Option AudioFormat :=
  match extension path with
  | none => none
  | some ext =>
    let e := lowerStr ext
    if e == "aif" then some AudioFormat.AIFF
    else if e == "aiff" then some AudioFormat.AIFF
    else if e == "ape" then some AudioFormat.APE
    else if e == "flac" then some AudioFormat.FLAC
    else if e == "m4a" then some AudioFormat.MP4
    else if e == "m4b" then some AudioFormat.M4B
    else if e == "mp3" then some AudioFormat.MP3
    else if e == "mpc" then some AudioFormat.MPC
    else if e == "ogg" then some AudioFormat.OGG
    else if e == "opus" then some AudioFormat.OPUS
    else if e == "wav" then some AudioFormat.WAVE
    else none

/-- The reader the dispatcher selects for each recognized format (the arms of
the `match` in `read`). -/
def readerFor (fmt : AudioFormat) (path : String) (env : Env) :
    RunResult (Except Error SongMetadata) :=
  match fmt with
  | AudioFormat.AIFF => RunResult.ok (read_id3 env)
  | AudioFormat.FLAC => read_flac env
  | AudioFormat.MP3 => RunResult.ok (read_mp3 env)
  | AudioFormat.OGG => RunResult.ok (read_vorbis path env)
  | AudioFormat.OPUS => RunResult.ok (read_opus env)
  | AudioFormat.WAVE => RunResult.ok (read_id3 env)
  | AudioFormat.APE => RunResult.ok (read_ape env)
  | AudioFormat.MPC => RunResult.ok (read_ape env)
  | AudioFormat.MP4 => RunResult.ok (read_mp4 env)
  | AudioFormat.M4B => RunResult.ok (read_mp4 env)

/-- The public dispatcher `read`: detect the format (early return with no log
when unrecognized), run the matching reader, convert a reader error into one
diagnostic log entry and an absent result. -/
def read (path : String) (env : Env) : RunResult (Option SongMetadata × List LogEntry) :=
  match get_audio_format path with
  | none => RunResult.ok (none, [])
  | some fmt =>
    match readerFor fmt path env with
    | RunResult.panics msg => RunResult.panics msg
    | RunResult.ok (Except.ok d) => RunResult.ok (some d, [])
    | RunResult.ok (Except.error e) =>
      RunResult.ok (none, [LogEntry.mk path (errorMessage e)])

/-! ### Helper lemmas for the comment-list fold -/

theorem eqIgnoreCase_excl {a b k : String} (hne : lowerStr a ≠ lowerStr b)
    (h : eqIgnoreCase b k = true) : eqIgnoreCase a k = false := by
  unfold eqIgnoreCase at h ⊢
  have hb : lowerStr b = lowerStr k := eq_of_beq h
  rw [Bool.eq_false_iff]
  intro hak
  exact hne ((eq_of_beq hak).trans hb.symm)

theorem bool_not_true {b : Bool} (h : b = false) : ¬(b = true) := by
  rw [h]
  exact Bool.false_ne_true

theorem collect_of_title (m : SongMetadata) (k v : String)
    (h : eqIgnoreCase "TITLE" k = true) :
    collectComment m k v = { m with title := some v } := by
  unfold collectComment
  rw [if_pos h]

theorem collect_of_album (m : SongMetadata) (k v : String)
    (e1 : eqIgnoreCase "TITLE" k = false)
    (h : eqIgnoreCase "ALBUM" k = true) :
    collectComment m k v = { m with album := some v } := by
  unfold collectComment
  rw [if_neg (bool_not_true e1), if_pos h]

theorem collect_of_artist (m : SongMetadata) (k v : String)
    (e1 : eqIgnoreCase "TITLE" k = false) (e2 : eqIgnoreCase "ALBUM" k = false)
    (h : eqIgnoreCase "ARTIST" k = true) :
    collectComment m k v = { m with artists := m.artists ++ [v] } := by
  unfold collectComment
  rw [if_neg (bool_not_true e1), if_neg (bool_not_true e2), if_pos h]

theorem collect_of_album_artist (m : SongMetadata) (k v : String)
    (e1 : eqIgnoreCase "TITLE" k = false) (e2 : eqIgnoreCase "ALBUM" k = false) (e3 : eqIgnoreCase "ARTIST" k = false)
    (h : eqIgnoreCase "ALBUMARTIST" k = true) :
    collectComment m k v = { m with album_artists := m.album_artists ++ [v] } := by
  unfold collectComment
  rw [if_neg (bool_not_true e1), if_neg (bool_not_true e2), if_neg (bool_not_true e3), if_pos h]

theorem collect_of_track (m : SongMetadata) (k v : String)
    (e1 : eqIgnoreCase "TITLE" k = false) (e2 : eqIgnoreCase "ALBUM" k = false) (e3 : eqIgnoreCase "ARTIST" k = false) (e4 : eqIgnoreCase "ALBUMARTIST" k = false)
    (h : eqIgnoreCase "TRACKNUMBER" k = true) :
    collectComment m k v = { m with track_number := parseU32S v } := by
  unfold collectComment
  rw [if_neg (bool_not_true e1), if_neg (bool_not_true e2), if_neg (bool_not_true e3), if_neg (bool_not_true e4), if_pos h]

theorem collect_of_disc (m : SongMetadata) (k v : String)
    (e1 : eqIgnoreCase "TITLE" k = false) (e2 : eqIgnoreCase "ALBUM" k = false) (e3 : eqIgnoreCase "ARTIST" k = false) (e4 : eqIgnoreCase "ALBUMARTIST" k = false) (e5 : eqIgnoreCase "TRACKNUMBER" k = false)
    (h : eqIgnoreCase "DISCNUMBER" k = true) :
    collectComment m k v = { m with disc_number := parseU32S v } := by
  unfold collectComment
  rw [if_neg (bool_not_true e1), if_neg (bool_not_true e2), if_neg (bool_not_true e3), if_neg (bool_not_true e4), if_neg (bool_not_true e5), if_pos h]

theorem collect_of_date (m : SongMetadata) (k v : String)
    (e1 : eqIgnoreCase "TITLE" k = false) (e2 : eqIgnoreCase "ALBUM" k = false) (e3 : eqIgnoreCase "ARTIST" k = false) (e4 : eqIgnoreCase "ALBUMARTIST" k = false) (e5 : eqIgnoreCase "TRACKNUMBER" k = false) (e6 : eqIgnoreCase "DISCNUMBER" k = false)
    (h : eqIgnoreCase "DATE" k = true) :
    collectComment m k v = { m with year := parseI32S v } := by
  unfold collectComment
  rw [if_neg (bool_not_true e1), if_neg (bool_not_true e2), if_neg (bool_not_true e3), if_neg (bool_not_true e4), if_neg (bool_not_true e5), if_neg (bool_not_true e6), if_pos h]

theorem collect_of_lyricist (m : SongMetadata) (k v : String)
    (e1 : eqIgnoreCase "TITLE" k = false) (e2 : eqIgnoreCase "ALBUM" k = false) (e3 : eqIgnoreCase "ARTIST" k = false) (e4 : eqIgnoreCase "ALBUMARTIST" k = false) (e5 : eqIgnoreCase "TRACKNUMBER" k = false) (e6 : eqIgnoreCase "DISCNUMBER" k = false) (e7 : eqIgnoreCase "DATE" k = false)
    (h : eqIgnoreCase "LYRICIST" k = true) :
    collectComment m k v = { m with lyricists := m.lyricists ++ [v] } := by
  unfold collectComment
  rw [if_neg (bool_not_true e1), if_neg (bool_not_true e2), if_neg (bool_not_true e3), if_neg (bool_not_true e4), if_neg (bool_not_true e5), if_neg (bool_not_true e6), if_neg (bool_not_true e7), if_pos h]

theorem collect_of_composer (m : SongMetadata) (k v : String)
    (e1 : eqIgnoreCase "TITLE" k = false) (e2 : eqIgnoreCase "ALBUM" k = false) (e3 : eqIgnoreCase "ARTIST" k = false) (e4 : eqIgnoreCase "ALBUMARTIST" k = false) (e5 : eqIgnoreCase "TRACKNUMBER" k = false) (e6 : eqIgnoreCase "DISCNUMBER" k = false) (e7 : eqIgnoreCase "DATE" k = false) (e8 : eqIgnoreCase "LYRICIST" k = false)
    (h : eqIgnoreCase "COMPOSER" k = true) :
    collectComment m k v = { m with composers := m.composers ++ [v] } := by
  unfold collectComment
  rw [if_neg (bool_not_true e1), if_neg (bool_not_true e2), if_neg (bool_not_true e3), if_neg (bool_not_true e4), if_neg (bool_not_true e5), if_neg (bool_not_true e6), if_neg (bool_not_true e7), if_neg (bool_not_true e8), if_pos h]

theorem collect_of_genre (m : SongMetadata) (k v : String)
    (e1 : eqIgnoreCase "TITLE" k = false) (e2 : eqIgnoreCase "ALBUM" k = false) (e3 : eqIgnoreCase "ARTIST" k = false) (e4 : eqIgnoreCase "ALBUMARTIST" k = false) (e5 : eqIgnoreCase "TRACKNUMBER" k = false) (e6 : eqIgnoreCase "DISCNUMBER" k = false) (e7 : eqIgnoreCase "DATE" k = false) (e8 : eqIgnoreCase "LYRICIST" k = false) (e9 : eqIgnoreCase "COMPOSER" k = false)
    (h : eqIgnoreCase "GENRE" k = true) :
    collectComment m k v = { m with genres := m.genres ++ [v] } := by
  unfold collectComment
  rw [if_neg (bool_not_true e1), if_neg (bool_not_true e2), if_neg (bool_not_true e3), if_neg (bool_not_true e4), if_neg (bool_not_true e5), if_neg (bool_not_true e6), if_neg (bool_not_true e7), if_neg (bool_not_true e8), if_neg (bool_not_true e9), if_pos h]

theorem collect_of_publisher (m : SongMetadata) (k v : String)
    (e1 : eqIgnoreCase "TITLE" k = false) (e2 : eqIgnoreCase "ALBUM" k = false) (e3 : eqIgnoreCase "ARTIST" k = false) (e4 : eqIgnoreCase "ALBUMARTIST" k = false) (e5 : eqIgnoreCase "TRACKNUMBER" k = false) (e6 : eqIgnoreCase "DISCNUMBER" k = false) (e7 : eqIgnoreCase "DATE" k = false) (e8 : eqIgnoreCase "LYRICIST" k = false) (e9 : eqIgnoreCase "COMPOSER" k = false) (e10 : eqIgnoreCase "GENRE" k = false)
    (h : eqIgnoreCase "PUBLISHER" k = true) :
    collectComment m k v = { m with labels := m.labels ++ [v] } := by
  unfold collectComment
  rw [if_neg (bool_not_true e1), if_neg (bool_not_true e2), if_neg (bool_not_true e3), if_neg (bool_not_true e4), if_neg (bool_not_true e5), if_neg (bool_not_true e6), if_neg (bool_not_true e7), if_neg (bool_not_true e8), if_neg (bool_not_true e9), if_neg (bool_not_true e10), if_pos h]

theorem collect_of_none (m : SongMetadata) (k v : String)
    (e1 : eqIgnoreCase "TITLE" k = false) (e2 : eqIgnoreCase "ALBUM" k = false) (e3 : eqIgnoreCase "ARTIST" k = false) (e4 : eqIgnoreCase "ALBUMARTIST" k = false) (e5 : eqIgnoreCase "TRACKNUMBER" k = false) (e6 : eqIgnoreCase "DISCNUMBER" k = false) (e7 : eqIgnoreCase "DATE" k = false) (e8 : eqIgnoreCase "LYRICIST" k = false) (e9 : eqIgnoreCase "COMPOSER" k = false) (e10 : eqIgnoreCase "GENRE" k = false) (e11 : eqIgnoreCase "PUBLISHER" k = false) :
    collectComment m k v = m := by
  unfold collectComment
  rw [if_neg (bool_not_true e1), if_neg (bool_not_true e2), if_neg (bool_not_true e3), if_neg (bool_not_true e4), if_neg (bool_not_true e5), if_neg (bool_not_true e6), if_neg (bool_not_true e7), if_neg (bool_not_true e8), if_neg (bool_not_true e9), if_neg (bool_not_true e10), if_neg (bool_not_true e11)]

theorem to_false {b : Bool} (h : ¬(b = true)) : b = false := by
  cases b
  case false => rfl
  case true => exact absurd rfl h

theorem step_all (m : SongMetadata) (k v : String) :
    ((collectComment m k v).title = if eqIgnoreCase "TITLE" k then some v else m.title) ∧
    ((collectComment m k v).album = if eqIgnoreCase "ALBUM" k then some v else m.album) ∧
    ((collectComment m k v).artists = if eqIgnoreCase "ARTIST" k then m.artists ++ [v] else m.artists) ∧
    ((collectComment m k v).album_artists = if eqIgnoreCase "ALBUMARTIST" k then m.album_artists ++ [v] else m.album_artists) ∧
    ((collectComment m k v).track_number = if eqIgnoreCase "TRACKNUMBER" k then parseU32S v else m.track_number) ∧
    ((collectComment m k v).disc_number = if eqIgnoreCase "DISCNUMBER" k then parseU32S v else m.disc_number) ∧
    ((collectComment m k v).year = if eqIgnoreCase "DATE" k then parseI32S v else m.year) ∧
    ((collectComment m k v).lyricists = if eqIgnoreCase "LYRICIST" k then m.lyricists ++ [v] else m.lyricists) ∧
    ((collectComment m k v).composers = if eqIgnoreCase "COMPOSER" k then m.composers ++ [v] else m.composers) ∧
    ((collectComment m k v).genres = if eqIgnoreCase "GENRE" k then m.genres ++ [v] else m.genres) ∧
    ((collectComment m k v).labels = if eqIgnoreCase "PUBLISHER" k then m.labels ++ [v] else m.labels) ∧
    ((collectComment m k v).duration = m.duration) ∧
    ((collectComment m k v).has_artwork = m.has_artwork) := by
  by_cases h1 : eqIgnoreCase "TITLE" k
  case pos =>
    have f2 : eqIgnoreCase "ALBUM" k = false := eqIgnoreCase_excl (by decide) h1
    have f3 : eqIgnoreCase "ARTIST" k = false := eqIgnoreCase_excl (by decide) h1
    have f4 : eqIgnoreCase "ALBUMARTIST" k = false := eqIgnoreCase_excl (by decide) h1
    have f5 : eqIgnoreCase "TRACKNUMBER" k = false := eqIgnoreCase_excl (by decide) h1
    have f6 : eqIgnoreCase "DISCNUMBER" k = false := eqIgnoreCase_excl (by decide) h1
    have f7 : eqIgnoreCase "DATE" k = false := eqIgnoreCase_excl (by decide) h1
    have f8 : eqIgnoreCase "LYRICIST" k = false := eqIgnoreCase_excl (by decide) h1
    have f9 : eqIgnoreCase "COMPOSER" k = false := eqIgnoreCase_excl (by decide) h1
    have f10 : eqIgnoreCase "GENRE" k = false := eqIgnoreCase_excl (by decide) h1
    have f11 : eqIgnoreCase "PUBLISHER" k = false := eqIgnoreCase_excl (by decide) h1
    rw [collect_of_title m k v h1]
    refine ⟨?_, ?_, ?_, ?_, ?_, ?_, ?_, ?_, ?_, ?_, ?_, ?_, ?_⟩ <;>
      (try simp only [h1, f2, f3, f4, f5, f6, f7, f8, f9, f10, f11, Bool.false_eq_true, if_false, eq_self_iff_true, if_true]) <;> trivial
  case neg =>
    have g1 : eqIgnoreCase "TITLE" k = false := to_false h1
    by_cases h2 : eqIgnoreCase "ALBUM" k
    case pos =>
      have f3 : eqIgnoreCase "ARTIST" k = false := eqIgnoreCase_excl (by decide) h2
      have f4 : eqIgnoreCase "ALBUMARTIST" k = false := eqIgnoreCase_excl (by decide) h2
      have f5 : eqIgnoreCase "TRACKNUMBER" k = false := eqIgnoreCase_excl (by decide) h2
      have f6 : eqIgnoreCase "DISCNUMBER" k = false := eqIgnoreCase_excl (by decide) h2
      have f7 : eqIgnoreCase "DATE" k = false := eqIgnoreCase_excl (by decide) h2
      have f8 : eqIgnoreCase "LYRICIST" k = false := eqIgnoreCase_excl (by decide) h2
      have f9 : eqIgnoreCase "COMPOSER" k = false := eqIgnoreCase_excl (by decide) h2
      have f10 : eqIgnoreCase "GENRE" k = false := eqIgnoreCase_excl (by decide) h2
      have f11 : eqIgnoreCase "PUBLISHER" k = false := eqIgnoreCase_excl (by decide) h2
      rw [collect_of_album m k v g1 h2]
      refine ⟨?_, ?_, ?_, ?_, ?_, ?_, ?_, ?_, ?_, ?_, ?_, ?_, ?_⟩ <;>
        (try simp only [h2, g1, f3, f4, f5, f6, f7, f8, f9, f10, f11, Bool.false_eq_true, if_false, eq_self_iff_true, if_true]) <;> trivial
    case neg =>
      have g2 : eqIgnoreCase "ALBUM" k = false := to_false h2
      by_cases h3 : eqIgnoreCase "ARTIST" k
      case pos =>
        have f4 : eqIgnoreCase "ALBUMARTIST" k = false := eqIgnoreCase_excl (by decide) h3
        have f5 : eqIgnoreCase "TRACKNUMBER" k = false := eqIgnoreCase_excl (by decide) h3
        have f6 : eqIgnoreCase "DISCNUMBER" k = false := eqIgnoreCase_excl (by decide) h3
        have f7 : eqIgnoreCase "DATE" k = false := eqIgnoreCase_excl (by decide) h3
        have f8 : eqIgnoreCase "LYRICIST" k = false := eqIgnoreCase_excl (by decide) h3
        have f9 : eqIgnoreCase "COMPOSER" k = false := eqIgnoreCase_excl (by decide) h3
        have f10 : eqIgnoreCase "GENRE" k = false := eqIgnoreCase_excl (by decide) h3
        have f11 : eqIgnoreCase "PUBLISHER" k = false := eqIgnoreCase_excl (by decide) h3
        rw [collect_of_artist m k v g1 g2 h3]
        refine ⟨?_, ?_, ?_, ?_, ?_, ?_, ?_, ?_, ?_, ?_, ?_, ?_, ?_⟩ <;>
          (try simp only [h3, g1, g2, f4, f5, f6, f7, f8, f9, f10, f11, Bool.false_eq_true, if_false, eq_self_iff_true, if_true]) <;> trivial
      case neg =>
        have g3 : eqIgnoreCase "ARTIST" k = false := to_false h3
        by_cases h4 : eqIgnoreCase "ALBUMARTIST" k
        case pos =>
          have f5 : eqIgnoreCase "TRACKNUMBER" k = false := eqIgnoreCase_excl (by decide) h4
          have f6 : eqIgnoreCase "DISCNUMBER" k = false := eqIgnoreCase_excl (by decide) h4
          have f7 : eqIgnoreCase "DATE" k = false := eqIgnoreCase_excl (by decide) h4
          have f8 : eqIgnoreCase "LYRICIST" k = false := eqIgnoreCase_excl (by decide) h4
          have f9 : eqIgnoreCase "COMPOSER" k = false := eqIgnoreCase_excl (by decide) h4
          have f10 : eqIgnoreCase "GENRE" k = false := eqIgnoreCase_excl (by decide) h4
          have f11 : eqIgnoreCase "PUBLISHER" k = false := eqIgnoreCase_excl (by decide) h4
          rw [collect_of_album_artist m k v g1 g2 g3 h4]
          refine ⟨?_, ?_, ?_, ?_, ?_, ?_, ?_, ?_, ?_, ?_, ?_, ?_, ?_⟩ <;>
            (try simp only [h4, g1, g2, g3, f5, f6, f7, f8, f9, f10, f11, Bool.false_eq_true, if_false, eq_self_iff_true, if_true]) <;> trivial
        case neg =>
          have g4 : eqIgnoreCase "ALBUMARTIST" k = false := to_false h4
          by_cases h5 : eqIgnoreCase "TRACKNUMBER" k
          case pos =>
            have f6 : eqIgnoreCase "DISCNUMBER" k = false := eqIgnoreCase_excl (by decide) h5
            have f7 : eqIgnoreCase "DATE" k = false := eqIgnoreCase_excl (by decide) h5
            have f8 : eqIgnoreCase "LYRICIST" k = false := eqIgnoreCase_excl (by decide) h5
            have f9 : eqIgnoreCase "COMPOSER" k = false := eqIgnoreCase_excl (by decide) h5
            have f10 : eqIgnoreCase "GENRE" k = false := eqIgnoreCase_excl (by decide) h5
            have f11 : eqIgnoreCase "PUBLISHER" k = false := eqIgnoreCase_excl (by decide) h5
            rw [collect_of_track m k v g1 g2 g3 g4 h5]
            refine ⟨?_, ?_, ?_, ?_, ?_, ?_, ?_, ?_, ?_, ?_, ?_, ?_, ?_⟩ <;>
              (try simp only [h5, g1, g2, g3, g4, f6, f7, f8, f9, f10, f11, Bool.false_eq_true, if_false, eq_self_iff_true, if_true]) <;> trivial
          case neg =>
            have g5 : eqIgnoreCase "TRACKNUMBER" k = false := to_false h5
            by_cases h6 : eqIgnoreCase "DISCNUMBER" k
            case pos =>
              have f7 : eqIgnoreCase "DATE" k = false := eqIgnoreCase_excl (by decide) h6
              have f8 : eqIgnoreCase "LYRICIST" k = false := eqIgnoreCase_excl (by decide) h6
              have f9 : eqIgnoreCase "COMPOSER" k = false := eqIgnoreCase_excl (by decide) h6
              have f10 : eqIgnoreCase "GENRE" k = false := eqIgnoreCase_excl (by decide) h6
              have f11 : eqIgnoreCase "PUBLISHER" k = false := eqIgnoreCase_excl (by decide) h6
              rw [collect_of_disc m k v g1 g2 g3 g4 g5 h6]
              refine ⟨?_, ?_, ?_, ?_, ?_, ?_, ?_, ?_, ?_, ?_, ?_, ?_, ?_⟩ <;>
                (try simp only [h6, g1, g2, g3, g4, g5, f7, f8, f9, f10, f11, Bool.false_eq_true, if_false, eq_self_iff_true, if_true]) <;> trivial
            case neg =>
              have g6 : eqIgnoreCase "DISCNUMBER" k = false := to_false h6
              by_cases h7 : eqIgnoreCase "DATE" k
              case pos =>
                have f8 : eqIgnoreCase "LYRICIST" k = false := eqIgnoreCase_excl (by decide) h7
                have f9 : eqIgnoreCase "COMPOSER" k = false := eqIgnoreCase_excl (by decide) h7
                have f10 : eqIgnoreCase "GENRE" k = false := eqIgnoreCase_excl (by decide) h7
                have f11 : eqIgnoreCase "PUBLISHER" k = false := eqIgnoreCase_excl (by decide) h7
                rw [collect_of_date m k v g1 g2 g3 g4 g5 g6 h7]
                refine ⟨?_, ?_, ?_, ?_, ?_, ?_, ?_, ?_, ?_, ?_, ?_, ?_, ?_⟩ <;>
                  (try simp only [h7, g1, g2, g3, g4, g5, g6, f8, f9, f10, f11, Bool.false_eq_true, if_false, eq_self_iff_true, if_true]) <;> trivial
              case neg =>
                have g7 : eqIgnoreCase "DATE" k = false := to_false h7
                by_cases h8 : eqIgnoreCase "LYRICIST" k
                case pos =>
                  have f9 : eqIgnoreCase "COMPOSER" k = false := eqIgnoreCase_excl (by decide) h8
                  have f10 : eqIgnoreCase "GENRE" k = false := eqIgnoreCase_excl (by decide) h8
                  have f11 : eqIgnoreCase "PUBLISHER" k = false := eqIgnoreCase_excl (by decide) h8
                  rw [collect_of_lyricist m k v g1 g2 g3 g4 g5 g6 g7 h8]
                  refine ⟨?_, ?_, ?_, ?_, ?_, ?_, ?_, ?_, ?_, ?_, ?_, ?_, ?_⟩ <;>
                    (try simp only [h8, g1, g2, g3, g4, g5, g6, g7, f9, f10, f11, Bool.false_eq_true, if_false, eq_self_iff_true, if_true]) <;> trivial
                case neg =>
                  have g8 : eqIgnoreCase "LYRICIST" k = false := to_false h8
                  by_cases h9 : eqIgnoreCase "COMPOSER" k
                  case pos =>
                    have f10 : eqIgnoreCase "GENRE" k = false := eqIgnoreCase_excl (by decide) h9
                    have f11 : eqIgnoreCase "PUBLISHER" k = false := eqIgnoreCase_excl (by decide) h9
                    rw [collect_of_composer m k v g1 g2 g3 g4 g5 g6 g7 g8 h9]
                    refine ⟨?_, ?_, ?_, ?_, ?_, ?_, ?_, ?_, ?_, ?_, ?_, ?_, ?_⟩ <;>
                      (try simp only [h9, g1, g2, g3, g4, g5, g6, g7, g8, f10, f11, Bool.false_eq_true, if_false, eq_self_iff_true, if_true]) <;> trivial
                  case neg =>
                    have g9 : eqIgnoreCase "COMPOSER" k = false := to_false h9
                    by_cases h10 : eqIgnoreCase "GENRE" k
                    case pos =>
                      have f11 : eqIgnoreCase "PUBLISHER" k = false := eqIgnoreCase_excl (by decide) h10
                      rw [collect_of_genre m k v g1 g2 g3 g4 g5 g6 g7 g8 g9 h10]
                      refine ⟨?_, ?_, ?_, ?_, ?_, ?_, ?_, ?_, ?_, ?_, ?_, ?_, ?_⟩ <;>
                        (try simp only [h10, g1, g2, g3, g4, g5, g6, g7, g8, g9, f11, Bool.false_eq_true, if_false, eq_self_iff_true, if_true]) <;> trivial
                    case neg =>
                      have g10 : eqIgnoreCase "GENRE" k = false := to_false h10
                      by_cases h11 : eqIgnoreCase "PUBLISHER" k
                      case pos =>
                        rw [collect_of_publisher m k v g1 g2 g3 g4 g5 g6 g7 g8 g9 g10 h11]
                        refine ⟨?_, ?_, ?_, ?_, ?_, ?_, ?_, ?_, ?_, ?_, ?_, ?_, ?_⟩ <;>
                          (try simp only [h11, g1, g2, g3, g4, g5, g6, g7, g8, g9, g10, Bool.false_eq_true, if_false, eq_self_iff_true, if_true]) <;> trivial
                      case neg =>
                        have g11 : eqIgnoreCase "PUBLISHER" k = false := to_false h11
                        rw [collect_of_none m k v g1 g2 g3 g4 g5 g6 g7 g8 g9 g10 g11]
                        refine ⟨?_, ?_, ?_, ?_, ?_, ?_, ?_, ?_, ?_, ?_, ?_, ?_, ?_⟩ <;>
                          (try simp only [g1, g2, g3, g4, g5, g6, g7, g8, g9, g10, g11, Bool.false_eq_true, if_false]) <;> trivial

theorem step_title (m : SongMetadata) (k v : String) :
    (collectComment m k v).title =
      if eqIgnoreCase "TITLE" k then some v else m.title :=
  (step_all m k v).1

theorem step_album (m : SongMetadata) (k v : String) :
    (collectComment m k v).album =
      if eqIgnoreCase "ALBUM" k then some v else m.album :=
  (step_all m k v).2.1

theorem step_artists (m : SongMetadata) (k v : String) :
    (collectComment m k v).artists =
      if eqIgnoreCase "ARTIST" k then m.artists ++ [v] else m.artists :=
  (step_all m k v).2.2.1

theorem step_album_artists (m : SongMetadata) (k v : String) :
    (collectComment m k v).album_artists =
      if eqIgnoreCase "ALBUMARTIST" k then m.album_artists ++ [v] else m.album_artists :=
  (step_all m k v).2.2.2.1

theorem step_track (m : SongMetadata) (k v : String) :
    (collectComment m k v).track_number =
      if eqIgnoreCase "TRACKNUMBER" k then parseU32S v else m.track_number :=
  (step_all m k v).2.2.2.2.1

theorem step_disc (m : SongMetadata) (k v : String) :
    (collectComment m k v).disc_number =
      if eqIgnoreCase "DISCNUMBER" k then parseU32S v else m.disc_number :=
  (step_all m k v).2.2.2.2.2.1

theorem step_year (m : SongMetadata) (k v : String) :
    (collectComment m k v).year =
      if eqIgnoreCase "DATE" k then parseI32S v else m.year :=
  (step_all m k v).2.2.2.2.2.2.1

theorem step_lyricists (m : SongMetadata) (k v : String) :
    (collectComment m k v).lyricists =
      if eqIgnoreCase "LYRICIST" k then m.lyricists ++ [v] else m.lyricists :=
  (step_all m k v).2.2.2.2.2.2.2.1

theorem step_composers (m : SongMetadata) (k v : String) :
    (collectComment m k v).composers =
      if eqIgnoreCase "COMPOSER" k then m.composers ++ [v] else m.composers :=
  (step_all m k v).2.2.2.2.2.2.2.2.1

theorem step_genres (m : SongMetadata) (k v : String) :
    (collectComment m k v).genres =
      if eqIgnoreCase "GENRE" k then m.genres ++ [v] else m.genres :=
  (step_all m k v).2.2.2.2.2.2.2.2.2.1

theorem step_labels (m : SongMetadata) (k v : String) :
    (collectComment m k v).labels =
      if eqIgnoreCase "PUBLISHER" k then m.labels ++ [v] else m.labels :=
  (step_all m k v).2.2.2.2.2.2.2.2.2.2.1

theorem step_duration (m : SongMetadata) (k v : String) :
    (collectComment m k v).duration = m.duration :=
  (step_all m k v).2.2.2.2.2.2.2.2.2.2.2.1

theorem step_artwork (m : SongMetadata) (k v : String) :
    (collectComment m k v).has_artwork = m.has_artwork :=
  (step_all m k v).2.2.2.2.2.2.2.2.2.2.2.2

/-- The values of every comment whose key matches the canonical key (up to
ASCII case), in encounter order. -/
def occurrences (canon : String) (l : List (String × String)) : List String :=
  (l.filter (fun kv => eqIgnoreCase canon kv.1)).map Prod.snd

/-- The value of the last comment whose key matches the canonical key. -/
def lastOcc (canon : String) (l : List (String × String)) : Option String :=
  (occurrences canon l).getLast?

theorem occurrences_cons_pos {c k : String} (h : eqIgnoreCase c k = true)
    (v : String) (t : List (String × String)) :
    occurrences c ((k, v) :: t) = v :: occurrences c t := by
  simp [occurrences, List.filter_cons, h]

theorem occurrences_cons_neg {c k : String} (h : eqIgnoreCase c k = false)
    (v : String) (t : List (String × String)) :
    occurrences c ((k, v) :: t) = occurrences c t := by
  simp [occurrences, List.filter_cons, h]

theorem getLast?_cons_oalt {α : Type} (x : α) (xs : List α) :
    (x :: xs).getLast? = oalt xs.getLast? (some x) := by
  induction xs generalizing x with
  | nil => rfl
  | cons y ys ih =>
    rw [List.getLast?_cons_cons, ih y, oalt_assoc]
    rfl

theorem lastOcc_cons_pos {c k : String} (h : eqIgnoreCase c k = true)
    (v : String) (t : List (String × String)) :
    lastOcc c ((k, v) :: t) = oalt (lastOcc c t) (some v) := by
  unfold lastOcc
  rw [occurrences_cons_pos h, getLast?_cons_oalt]

theorem lastOcc_cons_neg {c k : String} (h : eqIgnoreCase c k = false)
    (v : String) (t : List (String × String)) :
    lastOcc c ((k, v) :: t) = lastOcc c t := by
  unfold lastOcc
  rw [occurrences_cons_neg h]

/-- Last-match resolution for the numeric comment fields. -/
def resolveNum {α : Type} (o : Option String) (f : String → Option α) (d : Option α) :
    Option α :=
  match o with
  | some v => f v
  | none => d

theorem fold_title (l : List (String × String)) : ∀ acc : SongMetadata,
    (l.foldl stepComment acc).title = oalt (lastOcc "TITLE" l) acc.title := by
  induction l with
  | nil => intro acc; rfl
  | cons kv t ih =>
    intro acc
    obtain ⟨k, v⟩ := kv
    rw [List.foldl_cons, ih]
    cases h : eqIgnoreCase "TITLE" k with
    | false => rw [lastOcc_cons_neg h]; simp [stepComment, step_title, h]
    | true => rw [lastOcc_cons_pos h, oalt_assoc]; simp [stepComment, step_title, h]

theorem fold_album (l : List (String × String)) : ∀ acc : SongMetadata,
    (l.foldl stepComment acc).album = oalt (lastOcc "ALBUM" l) acc.album := by
  induction l with
  | nil => intro acc; rfl
  | cons kv t ih =>
    intro acc
    obtain ⟨k, v⟩ := kv
    rw [List.foldl_cons, ih]
    cases h : eqIgnoreCase "ALBUM" k with
    | false => rw [lastOcc_cons_neg h]; simp [stepComment, step_album, h]
    | true => rw [lastOcc_cons_pos h, oalt_assoc]; simp [stepComment, step_album, h]

theorem fold_artists (l : List (String × String)) : ∀ acc : SongMetadata,
    (l.foldl stepComment acc).artists = acc.artists ++ occurrences "ARTIST" l := by
  induction l with
  | nil => intro acc; simp [occurrences]
  | cons kv t ih =>
    intro acc
    obtain ⟨k, v⟩ := kv
    rw [List.foldl_cons, ih]
    cases h : eqIgnoreCase "ARTIST" k with
    | false => rw [occurrences_cons_neg h]; simp [stepComment, step_artists, h]
    | true => rw [occurrences_cons_pos h]; simp [stepComment, step_artists, h]

theorem fold_album_artists (l : List (String × String)) : ∀ acc : SongMetadata,
    (l.foldl stepComment acc).album_artists =
      acc.album_artists ++ occurrences "ALBUMARTIST" l := by
  induction l with
  | nil => intro acc; simp [occurrences]
  | cons kv t ih =>
    intro acc
    obtain ⟨k, v⟩ := kv
    rw [List.foldl_cons, ih]
    cases h : eqIgnoreCase "ALBUMARTIST" k with
    | false => rw [occurrences_cons_neg h]; simp [stepComment, step_album_artists, h]
    | true => rw [occurrences_cons_pos h]; simp [stepComment, step_album_artists, h]

theorem fold_lyricists (l : List (String × String)) : ∀ acc : SongMetadata,
    (l.foldl stepComment acc).lyricists = acc.lyricists ++ occurrences "LYRICIST" l := by
  induction l with
  | nil => intro acc; simp [occurrences]
  | cons kv t ih =>
    intro acc
    obtain ⟨k, v⟩ := kv
    rw [List.foldl_cons, ih]
    cases h : eqIgnoreCase "LYRICIST" k with
    | false => rw [occurrences_cons_neg h]; simp [stepComment, step_lyricists, h]
    | true => rw [occurrences_cons_pos h]; simp [stepComment, step_lyricists, h]

theorem fold_composers (l : List (String × String)) : ∀ acc : SongMetadata,
    (l.foldl stepComment acc).composers = acc.composers ++ occurrences "COMPOSER" l := by
  induction l with
  | nil => intro acc; simp [occurrences]
  | cons kv t ih =>
    intro acc
    obtain ⟨k, v⟩ := kv
    rw [List.foldl_cons, ih]
    cases h : eqIgnoreCase "COMPOSER" k with
    | false => rw [occurrences_cons_neg h]; simp [stepComment, step_composers, h]
    | true => rw [occurrences_cons_pos h]; simp [stepComment, step_composers, h]

theorem fold_genres (l : List (String × String)) : ∀ acc : SongMetadata,
    (l.foldl stepComment acc).genres = acc.genres ++ occurrences "GENRE" l := by
  induction l with
  | nil => intro acc; simp [occurrences]
  | cons kv t ih =>
    intro acc
    obtain ⟨k, v⟩ := kv
    rw [List.foldl_cons, ih]
    cases h : eqIgnoreCase "GENRE" k with
    | false => rw [occurrences_cons_neg h]; simp [stepComment, step_genres, h]
    | true => rw [occurrences_cons_pos h]; simp [stepComment, step_genres, h]

theorem fold_labels (l : List (String × String)) : ∀ acc : SongMetadata,
    (l.foldl stepComment acc).labels = acc.labels ++ occurrences "PUBLISHER" l := by
  induction l with
  | nil => intro acc; simp [occurrences]
  | cons kv t ih =>
    intro acc
    obtain ⟨k, v⟩ := kv
    rw [List.foldl_cons, ih]
    cases h : eqIgnoreCase "PUBLISHER" k with
    | false => rw [occurrences_cons_neg h]; simp [stepComment, step_labels, h]
    | true => rw [occurrences_cons_pos h]; simp [stepComment, step_labels, h]

theorem fold_track (l : List (String × String)) : ∀ acc : SongMetadata,
    (l.foldl stepComment acc).track_number =
      resolveNum (lastOcc "TRACKNUMBER" l) parseU32S acc.track_number := by
  induction l with
  | nil => intro acc; rfl
  | cons kv t ih =>
    intro acc
    obtain ⟨k, v⟩ := kv
    rw [List.foldl_cons, ih]
    cases h : eqIgnoreCase "TRACKNUMBER" k with
    | false => rw [lastOcc_cons_neg h]; simp [stepComment, step_track, h]
    | true =>
      rw [lastOcc_cons_pos h]
      cases hl : lastOcc "TRACKNUMBER" t <;>
        simp [stepComment, step_track, h, resolveNum, hl]

theorem fold_disc (l : List (String × String)) : ∀ acc : SongMetadata,
    (l.foldl stepComment acc).disc_number =
      resolveNum (lastOcc "DISCNUMBER" l) parseU32S acc.disc_number := by
  induction l with
  | nil => intro acc; rfl
  | cons kv t ih =>
    intro acc
    obtain ⟨k, v⟩ := kv
    rw [List.foldl_cons, ih]
    cases h : eqIgnoreCase "DISCNUMBER" k with
    | false => rw [lastOcc_cons_neg h]; simp [stepComment, step_disc, h]
    | true =>
      rw [lastOcc_cons_pos h]
      cases hl : lastOcc "DISCNUMBER" t <;>
        simp [stepComment, step_disc, h, resolveNum, hl]

theorem fold_year (l : List (String × String)) : ∀ acc : SongMetadata,
    (l.foldl stepComment acc).year =
      resolveNum (lastOcc "DATE" l) parseI32S acc.year := by
  induction l with
  | nil => intro acc; rfl
  | cons kv t ih =>
    intro acc
    obtain ⟨k, v⟩ := kv
    rw [List.foldl_cons, ih]
    cases h : eqIgnoreCase "DATE" k with
    | false => rw [lastOcc_cons_neg h]; simp [stepComment, step_year, h]
    | true =>
      rw [lastOcc_cons_pos h]
      cases hl : lastOcc "DATE" t <;>
        simp [stepComment, step_year, h, resolveNum, hl]

theorem fold_duration (l : List (String × String)) : ∀ acc : SongMetadata,
    (l.foldl stepComment acc).duration = acc.duration := by
  induction l with
  | nil => intro acc; rfl
  | cons kv t ih =>
    intro acc
    obtain ⟨k, v⟩ := kv
    rw [List.foldl_cons, ih]
    simp [stepComment, step_duration]

theorem fold_artwork (l : List (String × String)) : ∀ acc : SongMetadata,
    (l.foldl stepComment acc).has_artwork = acc.has_artwork := by
  induction l with
  | nil => intro acc; rfl
  | cons kv t ih =>
    intro acc
    obtain ⟨k, v⟩ := kv
    rw [List.foldl_cons, ih]
    simp [stepComment, step_artwork]

/-! ### Auxiliary parsing lemma for the item-tag reader -/

theorem parseU32_digits (ds : List Char) (hne : ds ≠ [])
    (hall : ds.all Char.isDigit = true) :
    parseU32 ds = if digitsToNat ds < 4294967296 then some (digitsToNat ds) else none := by
  cases ds with
  | nil => exact absurd rfl hne
  | cons c rest =>
    have hc : c.isDigit = true := by
      rw [List.all_cons, Bool.and_eq_true] at hall
      exact hall.1
    have hplus : ¬((c :: rest).head? = some '+') := by
      simp only [List.head?_cons, Option.some.injEq]
      intro hh
      rw [hh] at hc
      exact absurd hc (by decide)
    unfold parseU32
    rw [if_neg hplus]
    simp only [List.isEmpty_cons, Bool.false_eq_true, if_false, hall, if_true]

theorem parseU32_none_of_not_all (ds : List Char) (hne : ds ≠ [])
    (hmem : ∀ c ∈ ds, ape_ext.isUnicodeDigit c = true)
    (hall : ds.all Char.isDigit = false) :
    parseU32 ds = none := by
  cases ds with
  | nil => exact absurd rfl hne
  | cons c rest =>
    have hc : ape_ext.isUnicodeDigit c = true := hmem c (List.mem_cons_self c rest)
    have hplus : ¬((c :: rest).head? = some '+') := by
      simp only [List.head?_cons, Option.some.injEq]
      intro hh
      rw [hh] at hc
      exact absurd hc (by decide)
    unfold parseU32
    rw [if_neg hplus]
    simp only [List.isEmpty_cons, Bool.false_eq_true, if_false, hall]

/-! ### Concrete inputs used by witnesses and counterexamples -/

/-- An ID3 tag with every field absent. -/
def emptyId3Tag : Id3Tag :=
  { get := fun _ => none, album := none, title := none, duration := none
    disc := none, track := none, year := none, date_released := none
    original_date_released := none, date_recorded := none, pictures := 0 }

/-- A base environment in which every library front-end fails. -/
def baseEnv : Env :=
  { id3_read := Except.error { cause := "id3 failure", partial_tag := none }
    mp3_scan := Except.error ()
    ape_read := Except.error "ape failure"
    file_open := Except.ok ()
    ogg_new := Except.error "ogg failure"
    opus_parse := Except.error "opus failure"
    flac_read := Except.error "flac failure"
    mp4_read := Except.error "mp4 failure" }

def envC1ok : Env := { baseEnv with opus_parse := Except.ok [("TITLE", "T")] }

def tagC2zero : FlacTag :=
  { vorbis_comments := some { comments := [] },
    streaminfo := some { total_samples := 44100, sample_rate := 0 },
    pictures := 0 }

def envC2zeroRate : Env := { baseEnv with flac_read := Except.ok tagC2zero }

def tagC2empty : FlacTag :=
  { vorbis_comments := some { comments := [("DISCNUMBER", [])] },
    streaminfo := none,
    pictures := 0 }

def envC2emptyList : Env := { baseEnv with flac_read := Except.ok tagC2empty }

def tagC3 : FlacTag :=
  { vorbis_comments := some { comments := [] },
    streaminfo := some { total_samples := 4294967296, sample_rate := 1 },
    pictures := 0 }

def envC3 : Env := { baseEnv with flac_read := Except.ok tagC3 }

def mC3 : SongMetadata := { SongMetadata.default with duration := some 0 }

def tagC4 : Id3Tag := { emptyId3Tag with date_released := some { year := 1999 } }

def id3eC5 : Id3Error :=
  { cause := "truncated tag", partial_tag := some { emptyId3Tag with title := some "Recovered" } }

def envC5a : Env := { baseEnv with id3_read := Except.error id3eC5 }

def envC5b : Env :=
  { baseEnv with id3_read := Except.error { cause := "mangled header", partial_tag := none } }

def envC6 : Env :=
  { baseEnv with id3_read := Except.ok emptyId3Tag, mp3_scan := Except.ok 4294967296 }

def envC6b : Env := { baseEnv with id3_read := Except.ok emptyId3Tag }

def mC6 : SongMetadata := { SongMetadata.default with duration := some 0 }

def tagC7 : ApeTag :=
  { items_list := [{ key := "Disc", value := ApeItemValue.Text "4294967296/2" }] }

def envC7 : Env := { baseEnv with ape_read := Except.ok tagC7 }

def tagC7w : ApeTag :=
  { items_list := [{ key := "Track", value := ApeItemValue.Text "12/34" },
                   { key := "Year", value := ApeItemValue.Text "1984" }] }

def envC7w : Env := { baseEnv with ape_read := Except.ok tagC7w }

def lC8 : List (String × String) :=
  [("Title", "First"), ("TITLE", "Second"), ("artist", "A1"), ("ARTIST", "A2"),
   ("UNKNOWNKEY", "zzz"), ("genre", "G1")]

def envC8 : Env := { baseEnv with ogg_new := Except.ok lC8 }

def tagC9 : FlacTag :=
  { vorbis_comments := some { comments := [] },
    streaminfo := some { total_samples := 441000, sample_rate := 44100 },
    pictures := 1 }

def envC9 : Env := { baseEnv with flac_read := Except.ok tagC9 }

def mC9 : SongMetadata :=
  { SongMetadata.default with duration := some 10, has_artwork := true }

def tagC9b : FlacTag := { vorbis_comments := none, streaminfo := none, pictures := 0 }

def envC9b : Env := { baseEnv with flac_read := Except.ok tagC9b }

def tagC9c : FlacTag :=
  { vorbis_comments := some { comments := [] }, streaminfo := none, pictures := 0 }

def envC9c : Env := { baseEnv with flac_read := Except.ok tagC9c }

/-! ### Claim theorems -/

/-- C1: for every path, `read` returns nothing and writes no log entry when the
format detector does not recognize the extension; when it is recognized `read`
runs the matching reader, returns its value on success, and on reader failure
writes exactly one diagnostic entry carrying the path and the failure cause and
returns nothing — a reader error is never propagated to the caller. -/
theorem C1_dispatcher (path : String) (env : Env) :
    (get_audio_format path = none → read path env = RunResult.ok (none, [])) ∧
    (∀ fmt, get_audio_format path = some fmt →
      (∀ d, readerFor fmt path env = RunResult.ok (Except.ok d) →
        read path env = RunResult.ok (some d, [])) ∧
      (∀ e, readerFor fmt path env = RunResult.ok (Except.error e) →
        read path env = RunResult.ok (none, [LogEntry.mk path (errorMessage e)]))) := by
  constructor
  · intro h
    simp [read, h]
  · intro fmt hf
    constructor
    · intro d hd
      simp [read, hf, hd]
    · intro e he
      simp [read, hf, he]

theorem C1_dispatcher_witness :
    read "track.xyz" baseEnv = RunResult.ok (none, []) ∧
    read "track.opus" envC1ok =
      RunResult.ok (some (readCommentList [("TITLE", "T")]), []) ∧
    read "track.aif" baseEnv =
      RunResult.ok (none, [LogEntry.mk "track.aif" "id3 failure"]) := by
  refine ⟨(C1_dispatcher "track.xyz" baseEnv).1 (by decide), ?_, ?_⟩
  · exact ((C1_dispatcher "track.opus" envC1ok).2 AudioFormat.OPUS (by decide)).1 _ rfl
  · exact ((C1_dispatcher "track.aif" baseEnv).2 AudioFormat.AIFF (by decide)).2 _ rfl

/-- C2 (code bug): the FLAC reader can panic, contrary to the no-panic policy:
a stream-info block with sample rate zero makes the duration computation divide
by zero, and a comment key present with an empty value list makes `d[0]` index
out of bounds; the panic escapes through the public `read`. -/
theorem C2_flac_panic :
    read_flac envC2zeroRate = RunResult.panics "attempt to divide by zero" ∧
    read_flac envC2emptyList =
      RunResult.panics "index out of bounds: the len is 0 but the index is 0" ∧
    read "audio.flac" envC2zeroRate = RunResult.panics "attempt to divide by zero" := by
  have h1 : read_flac envC2zeroRate = RunResult.panics "attempt to divide by zero" := rfl
  refine ⟨h1, rfl, ?_⟩
  have h : get_audio_format "audio.flac" = some AudioFormat.FLAC := by decide
  simp [read, h, readerFor, h1]

/-- C3 (counterexample): a FLAC stream-info block with 2^32 total samples and
sample rate 1 yields duration 0, not 2^32 / 1 — the `as u32` cast truncates the
sample count before the division, so the claim as stated fails. -/
theorem C3_duration_cex :
    read_flac envC3 = RunResult.ok (Except.ok mC3) ∧
    mC3.duration = some 0 ∧ mC3.duration ≠ some (4294967296 / 1) := by
  refine ⟨rfl, rfl, by decide⟩

/-- C3 (amended): for every successfully read FLAC file, duration equals the
total sample count reduced modulo 2^32, divided by the sample rate with
truncating integer division, when a stream-info block exists; unset otherwise. -/
theorem C3_duration_amended (env : Env) (tag : FlacTag) (m : SongMetadata)
    (h1 : env.flac_read = Except.ok tag)
    (h2 : read_flac env = RunResult.ok (Except.ok m)) :
    m.duration = match tag.streaminfo with
      | some s => some (s.total_samples % 4294967296 / s.sample_rate)
      | none => none := by
  simp only [read_flac, h1] at h2
  cases hvc : tag.vorbis_comments with
  | none => simp [hvc] at h2
  | some vorbis =>
    simp only [hvc] at h2
    cases hd : vcFirstU32 (vorbis.get "DISCNUMBER") with
    | panics msg => simp [hd] at h2
    | ok disc =>
      simp only [hd] at h2
      cases hy : vcFirstI32 (vorbis.get "DATE") with
      | panics msg => simp [hy] at h2
      | ok yr =>
        simp only [hy] at h2
        cases hdur : flacDuration tag.streaminfo with
        | panics msg => simp [hdur] at h2
        | ok dur =>
          simp only [hdur] at h2
          cases hal : vcFirst vorbis.album with
          | panics msg => simp [hal] at h2
          | ok alb =>
            simp only [hal] at h2
            cases hti : vcFirst vorbis.title with
            | panics msg => simp [hti] at h2
            | ok tit =>
              simp only [hti, RunResult.ok.injEq, Except.ok.injEq] at h2
              subst h2
              cases hsi : tag.streaminfo with
              | none =>
                rw [hsi] at hdur
                simp only [flacDuration] at hdur
                injection hdur with h3
                exact h3.symm
              | some s =>
                rw [hsi] at hdur
                simp only [flacDuration] at hdur
                by_cases hz : s.sample_rate = 0
                · rw [if_pos hz] at hdur
                  exact absurd hdur (by simp)
                · rw [if_neg hz] at hdur
                  injection hdur with h3
                  exact h3.symm

theorem C3_duration_amended_witness :
    read_flac envC3 = RunResult.ok (Except.ok mC3) ∧
    mC3.duration = some (4294967296 % 4294967296 / 1) := by
  exact ⟨rfl, C3_duration_amended envC3 _ mC3 rfl rfl⟩

/-- C4: in the frame-tag reader the year is resolved by trying, in order, the
primary year accessor, the release date's year, the original release date's
year, then the recording date's year; the first present value wins and year is
unset exactly when all four are absent. -/
theorem C4_year_priority (tag : Id3Tag) :
    (∀ env, env.id3_read = Except.ok tag → read_id3 env = Except.ok (extract_id3 tag)) ∧
    (∀ y, tag.year = some y → (extract_id3 tag).year = some y) ∧
    (tag.year = none → ∀ d, tag.date_released = some d →
      (extract_id3 tag).year = some d.year) ∧
    (tag.year = none → tag.date_released = none → ∀ d,
      tag.original_date_released = some d → (extract_id3 tag).year = some d.year) ∧
    (tag.year = none → tag.date_released = none → tag.original_date_released = none →
      ∀ d, tag.date_recorded = some d → (extract_id3 tag).year = some d.year) ∧
    ((extract_id3 tag).year = none ↔ tag.year = none ∧ tag.date_released = none ∧
      tag.original_date_released = none ∧ tag.date_recorded = none) := by
  refine ⟨?_, ?_, ?_, ?_, ?_, ?_⟩
  · intro env h
    simp [read_id3, h]
  · intro y hy
    simp [extract_id3, hy]
  · intro hy d hd
    simp [extract_id3, hy, hd]
  · intro hy h1 d hd
    simp [extract_id3, hy, h1, hd]
  · intro hy h1 h2 d hd
    simp [extract_id3, hy, h1, h2, hd]
  · obtain ⟨g, alb, tit, dur, dsc, trk, yr, dr, odr, drc, pcs⟩ := tag
    cases yr <;> cases dr <;> cases odr <;> cases drc <;> simp [extract_id3, oalt]

theorem C4_year_priority_witness :
    tagC4.year = none ∧ (extract_id3 tagC4).year = some 1999 :=
  ⟨rfl, (C4_year_priority tagC4).2.2.1 rfl { year := 1999 } rfl⟩

/-- C5: when strict frame-tag parsing fails but the parser error carries a
recovered partial tag, extraction proceeds on the partial tag and the read
succeeds; when no partial tag was recovered the reader surfaces a hard failure
to the dispatcher. -/
theorem C5_partial_recovery (env : Env) (e : Id3Error)
    (h : env.id3_read = Except.error e) :
    (∀ t, e.partial_tag = some t → read_id3 env = Except.ok (extract_id3 t)) ∧
    (e.partial_tag = none → read_id3 env = Except.error (Error.Id3 e.cause)) := by
  constructor
  · intro t ht
    simp [read_id3, h, ht]
  · intro ht
    simp [read_id3, h, ht]

theorem C5_partial_recovery_witness :
    read_id3 envC5a = Except.ok (extract_id3 { emptyId3Tag with title := some "Recovered" }) ∧
    read_id3 envC5b = Except.error (Error.Id3 "mangled header") :=
  ⟨(C5_partial_recovery envC5a id3eC5 rfl).1 _ rfl,
   (C5_partial_recovery envC5b _ rfl).2 rfl⟩

/-- C6 (counterexample): a full-stream scan result of 2^32 seconds is stored as
duration 0 — the `as_secs() as u32` cast truncates modulo 2^32 — so the claim
that the duration field equals the scan result fails. -/
theorem C6_mp3_duration_cex :
    envC6.mp3_scan = Except.ok 4294967296 ∧
    read_mp3 envC6 = Except.ok mC6 ∧
    mC6.duration = some 0 ∧ mC6.duration ≠ some 4294967296 := by
  refine ⟨rfl, rfl, rfl, by decide⟩

/-- C6 (amended): for every MP3 whose frame tag is readable, duration equals
the full-stream scan result reduced modulo 2^32 when the scan succeeds and is
unset when it fails — the frame tag's own duration is never used — and every
other field equals the frame-tag reader's. -/
theorem C6_mp3_duration_amended (env : Env) (m0 m : SongMetadata)
    (h0 : read_id3 env = Except.ok m0) (h : read_mp3 env = Except.ok m) :
    (m.duration = match env.mp3_scan with
      | Except.ok d => some (d % 4294967296)
      | Except.error _ => none) ∧
    m.title = m0.title ∧ m.album = m0.album ∧ m.artists = m0.artists ∧
    m.album_artists = m0.album_artists ∧ m.disc_number = m0.disc_number ∧
    m.track_number = m0.track_number ∧ m.year = m0.year ∧
    m.has_artwork = m0.has_artwork ∧ m.lyricists = m0.lyricists ∧
    m.composers = m0.composers ∧ m.genres = m0.genres ∧ m.labels = m0.labels := by
  simp only [read_mp3, h0] at h
  injection h with h
  subst h
  exact ⟨rfl, rfl, rfl, rfl, rfl, rfl, rfl, rfl, rfl, rfl, rfl, rfl, rfl⟩

theorem C6_mp3_duration_amended_witness :
    read_mp3 envC6b = Except.ok SongMetadata.default ∧
    SongMetadata.default.duration = none := by
  refine ⟨rfl, (C6_mp3_duration_amended envC6b (extract_id3 emptyId3Tag)
    SongMetadata.default rfl rfl).1⟩

/-- C7 (counterexample): an item-tag Disc value of "4294967296/2" begins with a
decimal digit whose leading run is 4294967296, yet the reader leaves the field
unset because the run overflows `u32`, so the claim as stated fails. -/
theorem C7_ape_numeric_cex :
    read_ape envC7 = Except.ok { SongMetadata.default with has_artwork := false } ∧
    "4294967296/2".data.takeWhile ape_ext.isUnicodeDigit = "4294967296".data ∧
    digitsToNat "4294967296".data = 4294967296 ∧
    (SongMetadata.default).disc_number = none := by
  refine ⟨rfl, by decide, by decide, rfl⟩

/-- C7 (amended): Disc and Track are set to the numeric value of the leading
run of decimal digits — the regex's Unicode digit class, everything after the
run discarded — exactly when that run consists solely of ASCII digits and its
value fits in an unsigned 32-bit integer; they are unset when the text does not
begin with a decimal digit, the run contains a non-ASCII decimal digit, or the
run overflows. Year requires the entire item text to parse as a signed 32-bit
integer and is unset otherwise. -/
theorem C7_ape_numeric_amended (env : Env) (tag : ApeTag) (m : SongMetadata)
    (h : env.ape_read = Except.ok tag) (h2 : read_ape env = Except.ok m) :
    m.disc_number = (tag.item "Disc").bind ape_ext.read_x_of_y ∧
    m.track_number = (tag.item "Track").bind ape_ext.read_x_of_y ∧
    m.year = (tag.item "Year").bind ape_ext.read_i32 ∧
    (∀ item s, item.value = ApeItemValue.Text s →
      ape_ext.read_x_of_y item =
        (if s.data.takeWhile ape_ext.isUnicodeDigit = [] then none
         else if (s.data.takeWhile ape_ext.isUnicodeDigit).all Char.isDigit then
           if digitsToNat (s.data.takeWhile ape_ext.isUnicodeDigit) < 4294967296 then
             some (digitsToNat (s.data.takeWhile ape_ext.isUnicodeDigit))
           else none
         else none)) ∧
    (∀ item s, item.value = ApeItemValue.Text s →
      ape_ext.read_i32 item = parseI32 s.data) := by
  simp only [read_ape, h] at h2
  injection h2 with h2
  subst h2
  refine ⟨rfl, rfl, rfl, ?_, ?_⟩
  · intro item s hv
    unfold ape_ext.read_x_of_y
    rw [hv]
    unfold ape_ext.leadingDigitRun
    by_cases hrun : s.data.takeWhile ape_ext.isUnicodeDigit = []
    · rw [if_pos hrun]
      simp [hrun, List.isEmpty_iff]
    · rw [if_neg hrun]
      have hie : (s.data.takeWhile ape_ext.isUnicodeDigit).isEmpty = false := by
        rw [List.isEmpty_eq_false_iff_exists_mem]
        cases hx : s.data.takeWhile ape_ext.isUnicodeDigit with
        | nil => exact absurd hx hrun
        | cons a b => exact ⟨a, by simp⟩
      simp only [hie, Bool.false_eq_true, if_false]
      by_cases hall : (s.data.takeWhile ape_ext.isUnicodeDigit).all Char.isDigit
      · rw [if_pos hall]
        exact parseU32_digits _ hrun hall
      · rw [if_neg hall]
        exact parseU32_none_of_not_all _ hrun
          (fun c hc => List.mem_takeWhile_imp hc) (to_false hall)
  · intro item s hv
    unfold ape_ext.read_i32
    rw [hv]

def mC7w : SongMetadata :=
  { SongMetadata.default with track_number := some 12, year := some 1984 }

def tagC7u : ApeTag :=
  { items_list := [{ key := "Disc", value := ApeItemValue.Text "3٣" }] }

def envC7u : Env := { baseEnv with ape_read := Except.ok tagC7u }

theorem C7_ape_numeric_amended_witness :
    read_ape envC7w = Except.ok mC7w ∧
    mC7w.track_number = some 12 ∧ mC7w.year = some 1984 ∧
    read_ape envC7u = Except.ok SongMetadata.default ∧
    SongMetadata.default.disc_number = none := by
  have h := C7_ape_numeric_amended envC7w tagC7w mC7w rfl rfl
  have hu := C7_ape_numeric_amended envC7u tagC7u SongMetadata.default rfl rfl
  exact ⟨rfl, h.2.1.trans (by decide), h.2.2.1.trans (by decide), rfl,
    hu.1.trans (by decide)⟩

/-- C8: in the shared comment-list reader, title and album take the last
matching occurrence in list order while the six sequence fields accumulate
every matching occurrence in encounter order; matching is case-insensitive and
unknown keys are ignored (only matching occurrences contribute). -/
theorem C8_comment_fields (path : String) (env : Env) (l : List (String × String)) :
    (env.file_open = Except.ok () → env.ogg_new = Except.ok l →
      read_vorbis path env = Except.ok (readCommentList l)) ∧
    (env.opus_parse = Except.ok l → read_opus env = Except.ok (readCommentList l)) ∧
    (readCommentList l).title = lastOcc "TITLE" l ∧
    (readCommentList l).album = lastOcc "ALBUM" l ∧
    (readCommentList l).artists = occurrences "ARTIST" l ∧
    (readCommentList l).album_artists = occurrences "ALBUMARTIST" l ∧
    (readCommentList l).lyricists = occurrences "LYRICIST" l ∧
    (readCommentList l).composers = occurrences "COMPOSER" l ∧
    (readCommentList l).genres = occurrences "GENRE" l ∧
    (readCommentList l).labels = occurrences "PUBLISHER" l := by
  refine ⟨?_, ?_, ?_, ?_, ?_, ?_, ?_, ?_, ?_, ?_⟩
  · intro h1 h2
    simp [read_vorbis, h1, h2]
  · intro h1
    simp [read_opus, h1]
  · rw [readCommentList, fold_title]
    exact oalt_none_right _
  · rw [readCommentList, fold_album]
    exact oalt_none_right _
  · rw [readCommentList, fold_artists]
    exact List.nil_append _
  · rw [readCommentList, fold_album_artists]
    exact List.nil_append _
  · rw [readCommentList, fold_lyricists]
    exact List.nil_append _
  · rw [readCommentList, fold_composers]
    exact List.nil_append _
  · rw [readCommentList, fold_genres]
    exact List.nil_append _
  · rw [readCommentList, fold_labels]
    exact List.nil_append _

theorem C8_comment_fields_witness :
    read_vorbis "a.ogg" envC8 = Except.ok (readCommentList lC8) ∧
    (readCommentList lC8).title = some "Second" ∧
    (readCommentList lC8).artists = ["A1", "A2"] ∧
    (readCommentList lC8).genres = ["G1"] := by
  have h := C8_comment_fields "a.ogg" envC8 lC8
  refine ⟨h.1 rfl rfl, ?_, ?_, ?_⟩
  · exact h.2.2.1.trans (by decide)
  · exact h.2.2.2.2.1.trans (by decide)
  · exact h.2.2.2.2.2.2.2.2.1.trans (by decide)

/-- C9 (counterexample): a FLAC file whose comment block is present but empty
still yields duration and artwork from the stream-info and picture blocks, so
"all fields unset or empty" fails as stated. -/
theorem C9_empty_comment_cex :
    read_flac envC9 = RunResult.ok (Except.ok mC9) ∧
    mC9.duration = some 10 ∧ mC9.has_artwork = true ∧ mC9.duration ≠ none := by
  refine ⟨rfl, rfl, rfl, by decide⟩

/-- C9 (amended): a parsed FLAC file with no comment block is a hard failure
(the dispatcher logs it and yields no metadata); one whose comment block is
present but empty is a success in which every comment-derived field is unset or
empty, while duration and artwork may still come from the stream-info and
picture blocks. -/
theorem C9_missing_comment_block (path : String) (env : Env) (tag : FlacTag)
    (h : env.flac_read = Except.ok tag) :
    (tag.vorbis_comments = none →
      read_flac env = RunResult.ok (Except.error Error.VorbisCommentNotFoundInFlacFile) ∧
      (get_audio_format path = some AudioFormat.FLAC →
        read path env = RunResult.ok (none,
          [LogEntry.mk path (errorMessage Error.VorbisCommentNotFoundInFlacFile)]))) ∧
    (∀ vc m, tag.vorbis_comments = some vc → vc.comments = [] →
      read_flac env = RunResult.ok (Except.ok m) →
      m.title = none ∧ m.album = none ∧ m.artists = [] ∧ m.album_artists = [] ∧
      m.disc_number = none ∧ m.track_number = none ∧ m.year = none ∧
      m.lyricists = [] ∧ m.composers = [] ∧ m.genres = [] ∧ m.labels = []) := by
  constructor
  · intro hvc
    have hr : read_flac env =
        RunResult.ok (Except.error Error.VorbisCommentNotFoundInFlacFile) := by
      simp only [read_flac, h, hvc]
    refine ⟨hr, ?_⟩
    intro hfmt
    simp [read, hfmt, readerFor, hr]
  · intro vc m hvc hemp h2
    obtain ⟨cs⟩ := vc
    simp only [FlacVorbisComment.mk.injEq] at hemp
    subst hemp
    simp only [read_flac, h, hvc] at h2
    cases hdur : flacDuration tag.streaminfo with
    | panics msg =>
      simp [vcFirstU32, vcFirstI32, FlacVorbisComment.get, hdur] at h2
    | ok dur =>
      simp only [vcFirstU32, vcFirstI32, vcFirst, FlacVorbisComment.get,
        FlacVorbisComment.album, FlacVorbisComment.title, List.find?_nil,
        Option.map_none', hdur, RunResult.ok.injEq, Except.ok.injEq] at h2
      subst h2
      exact ⟨rfl, rfl, rfl, rfl, rfl, rfl, rfl, rfl, rfl, rfl, rfl⟩

theorem C9_missing_comment_block_witness :
    read_flac envC9b = RunResult.ok (Except.error Error.VorbisCommentNotFoundInFlacFile) ∧
    read "x.flac" envC9b = RunResult.ok (none,
      [LogEntry.mk "x.flac" "Could not find a Vorbis comment within flac file"]) ∧
    read_flac envC9c = RunResult.ok (Except.ok SongMetadata.default) ∧
    SongMetadata.default.title = none ∧ SongMetadata.default.artists = [] := by
  have h1 := C9_missing_comment_block "x.flac" envC9b _ rfl
  have h2 := C9_missing_comment_block "y.flac" envC9c _ rfl
  refine ⟨(h1.1 rfl).1, (h1.1 rfl).2 (by decide), rfl, ?_, ?_⟩
  · exact (h2.2 { comments := [] } SongMetadata.default rfl rfl rfl).1
  · exact (h2.2 { comments := [] } SongMetadata.default rfl rfl rfl).2.2.1

/-- C10: in the comment-list reader every occurrence of TRACKNUMBER, DISCNUMBER
or DATE unconditionally overwrites the field with that occurrence's parse
result, so the final field is the parse of the last matching occurrence — a
later unparsable occurrence resets a field an earlier parsable one had set. -/
theorem C10_numeric_overwrite (l : List (String × String)) :
    (∀ m k v, eqIgnoreCase "TRACKNUMBER" k = true →
      (collectComment m k v).track_number = parseU32S v) ∧
    (∀ m k v, eqIgnoreCase "DISCNUMBER" k = true →
      (collectComment m k v).disc_number = parseU32S v) ∧
    (∀ m k v, eqIgnoreCase "DATE" k = true →
      (collectComment m k v).year = parseI32S v) ∧
    (readCommentList l).track_number = (lastOcc "TRACKNUMBER" l).bind parseU32S ∧
    (readCommentList l).disc_number = (lastOcc "DISCNUMBER" l).bind parseU32S ∧
    (readCommentList l).year = (lastOcc "DATE" l).bind parseI32S := by
  refine ⟨?_, ?_, ?_, ?_, ?_, ?_⟩
  · intro m k v h
    rw [step_track, if_pos h]
  · intro m k v h
    rw [step_disc, if_pos h]
  · intro m k v h
    rw [step_year, if_pos h]
  · rw [readCommentList, fold_track]
    cases lastOcc "TRACKNUMBER" l <;> rfl
  · rw [readCommentList, fold_disc]
    cases lastOcc "DISCNUMBER" l <;> rfl
  · rw [readCommentList, fold_year]
    cases lastOcc "DATE" l <;> rfl

theorem C10_numeric_overwrite_witness :
    (collectComment SongMetadata.default "tracknumber" "7").track_number = some 7 ∧
    (readCommentList [("TRACKNUMBER", "3"), ("tracknumber", "junk")]).track_number
      = none := by
  have h := C10_numeric_overwrite [("TRACKNUMBER", "3"), ("tracknumber", "junk")]
  refine ⟨?_, ?_⟩
  · exact (h.1 SongMetadata.default "tracknumber" "7" (by decide)).trans (by decide)
  · exact h.2.2.2.1.trans (by decide)

end Polaris
